import Mathlib

/-!
Verification of the EPF annual account slip generator (`epf_calculator.py`).

The calculation engine of the repository is shallowly embedded here:

* Monetary cell values and the interest rate are modelled as exact rationals
  (`ℚ`).  The Python source computes with IEEE doubles; at every concrete
  input appearing below the double product is exactly the decimal value, so
  the rational model agrees with the source there.
* Python's built-in `round` (round to nearest, ties to even) is `pyRound`;
  Python's `int(...)` truncation on a numeric value is `pyInt`.
* Fallible operations of the source (list indexing, the type expectations on
  cells) are modelled in the `Option` monad: `none` models a raised
  `IndexError` / `TypeError`.
-/

namespace EPF

/-- Python 3 built-in `round` on an exact rational: round to the nearest
integer, with ties going to the even integer (banker's rounding). -/
def pyRound (q : ℚ) : ℤ :=
  let f := ⌊q⌋
  let r := q - f
  if r < 1/2 then f
  else if 1/2 < r then f + 1
  else if f % 2 = 0 then f else f + 1

/-- Python `int(...)` applied to a numeric value: truncation toward zero. -/
def pyInt (q : ℚ) : ℤ :=
  if 0 ≤ q then ⌊q⌋ else ⌈q⌉

/-- Source constant `EMPLOYEE_CONTRIBUTION_RATE = 0.12`. -/
def EMPLOYEE_CONTRIBUTION_RATE : ℚ := 0.12

/-- Source constant `EPS_CONTRIBUTION_RATE = 0.0833`. -/
def EPS_CONTRIBUTION_RATE : ℚ := 0.0833

/-- Source constant `EMPLOYER_CONTRIBUTION_RATE = 0.0367`. -/
def EMPLOYER_CONTRIBUTION_RATE : ℚ := 0.0367

/-- Source constant `INTEREST_DIVISOR = 1200`. -/
def INTEREST_DIVISOR : ℚ := 1200

/-- Source constant `EXPECTED_WAGES_COLUMNS = 14`. -/
def EXPECTED_WAGES_COLUMNS : ℕ := 14

/-- Source constant `EXPECTED_WDL_COLUMNS = 12`. -/
def EXPECTED_WDL_COLUMNS : ℕ := 12

/-- Source constant `EXPECTED_OB_COLUMNS = 1`. -/
def EXPECTED_OB_COLUMNS : ℕ := 1

/-- Function `calculate_contributions` of `epf_calculator.py` (lines 230-242):
`employee = round(wage * EMPLOYEE_CONTRIBUTION_RATE)`,
`eps = round(wage * EPS_CONTRIBUTION_RATE)`,
`employer = round(wage * EMPLOYER_CONTRIBUTION_RATE)`,
returned in the order `(employee, employer, eps)`. -/
def calculate_contributions (wage : ℚ) : ℤ × ℤ × ℤ :=
  let employee := pyRound (wage * EMPLOYEE_CONTRIBUTION_RATE)
  let eps := pyRound (wage * EPS_CONTRIBUTION_RATE)
  let employer := pyRound (wage * EMPLOYER_CONTRIBUTION_RATE)
  (employee, employer, eps)

/-- Modelled from the spec: "standard round-half-up semantics" — rounding to
the nearest whole currency unit with half-way ties rounded up. -/
def roundHalfUp (q : ℚ) : ℤ := ⌊q + 1/2⌋

/-- One pass of the loop of `calculate_monthly_balances` (lines 273-281) for
a single fund share: starting from running balance `cur` at list index `i`,
perform `k` iterations of
`current_balance = current_balance + contributions[i] - withdrawals[i]`,
collecting the appended running balances; an out-of-range index is `none`
(a Python `IndexError`).  The source updates both fund shares inside one
loop; the two updates touch disjoint state, so the loop is modelled as one
pass per share. -/
def balanceSteps (cs ws : List ℤ) : ℤ → ℕ → ℕ → Option (List ℤ)
  | _, _, 0 => some []
  | cur, i, k+1 => do
    let c ← cs[i]?
    let w ← ws[i]?
    let b := cur + c - w
    let rest ← balanceSteps cs ws b (i+1) k
    pure (b :: rest)

/-- Total companion of `balanceSteps` (out-of-range reads default to `0`);
`balanceSteps` agrees with it whenever every index is in range. -/
def balSpecAux (cs ws : List ℤ) : ℤ → ℕ → ℕ → List ℤ
  | _, _, 0 => []
  | cur, i, k+1 =>
    let b := cur + cs.getD i 0 - ws.getD i 0
    b :: balSpecAux cs ws b (i+1) k

/-- Function `calculate_monthly_balances` of `epf_calculator.py` (lines
245-295).  The loop `for i in range(len(ee_contributions) - 1)` iterates
`len(ee_contributions) - 1` times — the bound is taken from the
employee-share contribution list alone.  The interest of each share is
`round(((sum(balances) - sum(withdrawals)) * rate) / INTEREST_DIVISOR)`. -/
def calculate_monthly_balances (ob_ee ob_er : ℤ)
    (ee_contributions er_contributions ee_withdrawals er_withdrawals : List ℤ)
    (rate : ℚ) : Option (List ℤ × List ℤ × ℤ × ℤ) :=
  match balanceSteps ee_contributions ee_withdrawals ob_ee 0 (ee_contributions.length - 1),
        balanceSteps er_contributions er_withdrawals ob_er 0 (ee_contributions.length - 1) with
  | some eeTail, some erTail =>
    let ee_balances := ob_ee :: eeTail
    let er_balances := ob_er :: erTail
    let ee_interest :=
      pyRound (((ee_balances.sum - ee_withdrawals.sum : ℤ) : ℚ) * rate / INTEREST_DIVISOR)
    let er_interest :=
      pyRound (((er_balances.sum - er_withdrawals.sum : ℤ) : ℚ) * rate / INTEREST_DIVISOR)
    some (ee_balances, er_balances, ee_interest, er_interest)
  | _, _ => none

/-- Cell value of a worksheet: text or an exact numeric amount. -/
inductive Value where
  | str : String → Value
  | num : ℚ → Value
deriving DecidableEq

/-- Numeric payload of a cell; `none` on a text cell (whose use in Python
arithmetic would raise a `TypeError`). -/
def Value.toNum : Value → Option ℚ
  | .num q => some q
  | .str _ => none

/-- Python `int(cell)` on a cell value used as a number: truncation toward
zero; `none` on a text cell. -/
def Value.toIntTrunc : Value → Option ℤ
  | .num q => some (pyInt q)
  | .str _ => none

/-- Application of `f` to every element of a list, failing when any single
application fails: the model of a Python list comprehension or loop whose
body may raise. -/
def mapCells (f : α → Option β) : List α → Option (List β)
  | [] => some []
  | a :: as => do
    let b ← f a
    let bs ← mapCells f as
    pure (b :: bs)

/-- Function `fetch_sheet_data(sheet, "single")` of `epf_calculator.py`
(lines 204-227): a sheet's stored cells are the rows `2 .. max_row`, each
row holding `max_column` cells, an empty cell being `none` (openpyxl reports
it as Python `None`).  The single-column branch reads column 1 of every data
row and substitutes `0` for a missing value. -/
def fetch_sheet_data_single (rows : List (List (Option Value))) : List Value :=
  rows.map (fun r => (r.getD 0 none).getD (Value.num 0))

/-- Multi-column branch of `fetch_sheet_data` (lines 221-226): every cell of
every data row is read in order, substituting `0` for a missing value. -/
def fetch_sheet_data_multi (rows : List (List (Option Value))) : List (List Value) :=
  rows.map (fun r => r.map (fun v => v.getD (Value.num 0)))

/-- Header row built at lines 321-339 of `generate_output_rows`. -/
def headerRow : List Value :=
  [Value.str "A/C No.", Value.str "NAME", Value.str "OB(EE)", Value.str "OB(ER)",
   Value.str "INT(EE)", Value.str "INT(ER)", Value.str "CONT(EE)", Value.str "CONT(ER)",
   Value.str "WDL(EE)", Value.str "WDL(ER)", Value.str "CB(EE)", Value.str "CB(ER)",
   Value.str "OB(EPS)", Value.str "CONT(EPS)", Value.str "CB(EPS)"]

/-- Body of the per-employee loop of `generate_output_rows` (lines 341-395)
at loop index `i`: slice the wage row, derive the monthly contribution
triples, coerce the opening balances and withdrawals with `int(...)`, call
`calculate_monthly_balances`, total the series, and emit the 15-entry row
with `str(...)` around every computed number. -/
def employeeRow (wage_row : List Value)
    (ob_ee_data ob_er_data ob_eps_data : List Value)
    (wdl_ee_data wdl_er_data : List (List Value)) (rate : ℚ) (i : ℕ) :
    Option (List Value) :=
  match wage_row[0]?, wage_row[1]?,
        mapCells Value.toNum ((wage_row.drop 2).take EXPECTED_WDL_COLUMNS) with
  | some account_no, some name, some wages =>
    let triples := wages.map calculate_contributions
    let ee_contribs := triples.map (fun t => t.1)
    let er_contribs := triples.map (fun t => t.2.1)
    let eps_contribs := triples.map (fun t => t.2.2)
    match (ob_ee_data[i]?).bind Value.toIntTrunc,
          (ob_er_data[i]?).bind Value.toIntTrunc,
          (ob_eps_data[i]?).bind Value.toIntTrunc,
          (wdl_ee_data[i]?).bind (mapCells Value.toIntTrunc),
          (wdl_er_data[i]?).bind (mapCells Value.toIntTrunc) with
    | some ob_ee, some ob_er, some ob_eps, some ee_withdrawals, some er_withdrawals =>
      match calculate_monthly_balances ob_ee ob_er ee_contribs er_contribs
          ee_withdrawals er_withdrawals rate with
      | some res =>
        let ee_interest := res.2.2.1
        let er_interest := res.2.2.2
        let total_ee_contrib := ee_contribs.sum
        let total_er_contrib := er_contribs.sum
        let total_ee_wdl := ee_withdrawals.sum
        let total_er_wdl := er_withdrawals.sum
        let total_eps := eps_contribs.sum
        let cb_ee := ob_ee + ee_interest + total_ee_contrib - total_ee_wdl
        let cb_er := ob_er + er_interest + total_er_contrib - total_er_wdl
        let cb_eps := ob_eps + total_eps
        some [account_no, name, Value.str (toString ob_ee), Value.str (toString ob_er),
          Value.str (toString ee_interest), Value.str (toString er_interest),
          Value.str (toString total_ee_contrib), Value.str (toString total_er_contrib),
          Value.str (toString total_ee_wdl), Value.str (toString total_er_wdl),
          Value.str (toString cb_ee), Value.str (toString cb_er),
          Value.str (toString ob_eps), Value.str (toString total_eps),
          Value.str (toString cb_eps)]
      | none => none
    | _, _, _, _, _ => none
  | _, _, _ => none


/-- Loop of `generate_output_rows` over `enumerate(wage_sheet_data)`,
starting at loop index `i`. -/
def dataRows (ob_ee_data ob_er_data ob_eps_data : List Value)
    (wdl_ee_data wdl_er_data : List (List Value)) (rate : ℚ) :
    List (List Value) → ℕ → Option (List (List Value))
  | [], _ => some []
  | wrow :: rest, i =>
    match employeeRow wrow ob_ee_data ob_er_data ob_eps_data wdl_ee_data
        wdl_er_data rate i,
      dataRows ob_ee_data ob_er_data ob_eps_data wdl_ee_data wdl_er_data rate
        rest (i+1) with
    | some r, some rs => some (r :: rs)
    | _, _ => none

/-- Function `generate_output_rows` of `epf_calculator.py` (lines 298-397):
the header row followed by one computed row per wage-table entry. -/
def generate_output_rows (wage_sheet_data : List (List Value))
    (ob_ee_data ob_er_data ob_eps_data : List Value)
    (wdl_ee_data wdl_er_data : List (List Value)) (rate : ℚ) :
    Option (List (List Value)) :=
  (dataRows ob_ee_data ob_er_data ob_eps_data wdl_ee_data wdl_er_data rate
      wage_sheet_data 0).map (fun rows => headerRow :: rows)

/-- Dimensions of a worksheet as reported by openpyxl. -/
structure Worksheet where
  max_row : ℕ
  max_column : ℕ

/-- Diagnostic text of a failed column-count check, exactly as formatted at
lines 145-174 of the source. -/
def columnsMsg (sheetName : String) (noun : String) (expected actual : ℕ) : String :=
  "In \x27" ++ sheetName ++ "\x27 Sheet Expected " ++ toString expected ++ " " ++
    noun ++ ", found " ++ toString actual ++ "."

/-- Diagnostic text of a failed row-count check, exactly as formatted at
lines 177-201 of the source: it names both row counts. -/
def rowMismatchMsg (sheetName : String) (wageRows actualRows : ℕ) : String :=
  "Row count mismatch: \x27Wages\x27 has " ++ toString wageRows ++
    " rows, \x27" ++ sheetName ++ "\x27 has " ++ toString actualRows ++ " rows."

/-- Function `validate_sheet_dimensions` of `epf_calculator.py` (lines
121-201): the chain of column-count checks followed by row-count checks;
`some msg` models `raise DataValidationError(msg)`, `none` a normal
return.  The function only reads dimensions; it mutates nothing. -/
def validate_sheet_dimensions
    (wage_sheet ob_ee_sheet ob_er_sheet ob_eps_sheet wdl_ee_sheet wdl_er_sheet :
      Worksheet) : Option String :=
  let wage_sheet_row_count := wage_sheet.max_row
  if wage_sheet.max_column ≠ EXPECTED_WAGES_COLUMNS then
    some (columnsMsg "Wages" "columns" EXPECTED_WAGES_COLUMNS wage_sheet.max_column)
  else if ob_ee_sheet.max_column ≠ EXPECTED_OB_COLUMNS then
    some (columnsMsg "OB_EE" "column" EXPECTED_OB_COLUMNS ob_ee_sheet.max_column)
  else if ob_er_sheet.max_column ≠ EXPECTED_OB_COLUMNS then
    some (columnsMsg "OB_ER" "column" EXPECTED_OB_COLUMNS ob_er_sheet.max_column)
  else if ob_eps_sheet.max_column ≠ EXPECTED_OB_COLUMNS then
    some (columnsMsg "OB_EPS" "column" EXPECTED_OB_COLUMNS ob_eps_sheet.max_column)
  else if wdl_ee_sheet.max_column ≠ EXPECTED_WDL_COLUMNS then
    some (columnsMsg "WDL_EE" "columns" EXPECTED_WDL_COLUMNS wdl_ee_sheet.max_column)
  else if wdl_er_sheet.max_column ≠ EXPECTED_WDL_COLUMNS then
    some (columnsMsg "WDL_ER" "columns" EXPECTED_WDL_COLUMNS wdl_er_sheet.max_column)
  else if wage_sheet_row_count ≠ ob_ee_sheet.max_row then
    some (rowMismatchMsg "OB_EE" wage_sheet_row_count ob_ee_sheet.max_row)
  else if wage_sheet_row_count ≠ ob_er_sheet.max_row then
    some (rowMismatchMsg "OB_ER" wage_sheet_row_count ob_er_sheet.max_row)
  else if wage_sheet_row_count ≠ ob_eps_sheet.max_row then
    some (rowMismatchMsg "OB_EPS" wage_sheet_row_count ob_eps_sheet.max_row)
  else if wage_sheet_row_count ≠ wdl_ee_sheet.max_row then
    some (rowMismatchMsg "WDL_EE" wage_sheet_row_count wdl_ee_sheet.max_row)
  else if wage_sheet_row_count ≠ wdl_er_sheet.max_row then
    some (rowMismatchMsg "WDL_ER" wage_sheet_row_count wdl_er_sheet.max_row)
  else
    none

/-- Modelled from the spec: the fixed ordered list of dimension checks —
column checks for all six tables, then row-count checks of each remaining
table against the wage table — each carrying its diagnostic together with
the two counts it compares (in the source's operand order); the diagnostic
text itself names the table and renders both counts. -/
def dimensionChecks
    (wage_sheet ob_ee_sheet ob_er_sheet ob_eps_sheet wdl_ee_sheet wdl_er_sheet :
      Worksheet) : List (String × ℕ × ℕ) :=
  [ (columnsMsg "Wages" "columns" EXPECTED_WAGES_COLUMNS wage_sheet.max_column,
      wage_sheet.max_column, EXPECTED_WAGES_COLUMNS),
    (columnsMsg "OB_EE" "column" EXPECTED_OB_COLUMNS ob_ee_sheet.max_column,
      ob_ee_sheet.max_column, EXPECTED_OB_COLUMNS),
    (columnsMsg "OB_ER" "column" EXPECTED_OB_COLUMNS ob_er_sheet.max_column,
      ob_er_sheet.max_column, EXPECTED_OB_COLUMNS),
    (columnsMsg "OB_EPS" "column" EXPECTED_OB_COLUMNS ob_eps_sheet.max_column,
      ob_eps_sheet.max_column, EXPECTED_OB_COLUMNS),
    (columnsMsg "WDL_EE" "columns" EXPECTED_WDL_COLUMNS wdl_ee_sheet.max_column,
      wdl_ee_sheet.max_column, EXPECTED_WDL_COLUMNS),
    (columnsMsg "WDL_ER" "columns" EXPECTED_WDL_COLUMNS wdl_er_sheet.max_column,
      wdl_er_sheet.max_column, EXPECTED_WDL_COLUMNS),
    (rowMismatchMsg "OB_EE" wage_sheet.max_row ob_ee_sheet.max_row,
      wage_sheet.max_row, ob_ee_sheet.max_row),
    (rowMismatchMsg "OB_ER" wage_sheet.max_row ob_er_sheet.max_row,
      wage_sheet.max_row, ob_er_sheet.max_row),
    (rowMismatchMsg "OB_EPS" wage_sheet.max_row ob_eps_sheet.max_row,
      wage_sheet.max_row, ob_eps_sheet.max_row),
    (rowMismatchMsg "WDL_EE" wage_sheet.max_row wdl_ee_sheet.max_row,
      wage_sheet.max_row, wdl_ee_sheet.max_row),
    (rowMismatchMsg "WDL_ER" wage_sheet.max_row wdl_er_sheet.max_row,
      wage_sheet.max_row, wdl_er_sheet.max_row) ]

/-- Statement that `z` rounds `q` to the nearest integer under ties-to-even
semantics: `z` is within half a unit of `q`, and an exact half-way tie lands
on an even integer. -/
def roundsToNearestTiesEven (q : ℚ) (z : ℤ) : Prop :=
  |(z : ℚ) - q| ≤ 1/2 ∧ (|(z : ℚ) - q| = 1/2 → z % 2 = 0)

/-- Validity of the `i`-th employee's slice of the six fetched tables, as
guaranteed by validation and extraction: the wage row has the full 14
columns with numeric wage cells, each opening-balance table has a numeric
entry at `i`, and each withdrawal table has a 12-cell numeric row at `i`. -/
def rowOkB (wage_row : List Value) (ob_ee_data ob_er_data ob_eps_data : List Value)
    (wdl_ee_data wdl_er_data : List (List Value)) (i : ℕ) : Bool :=
  wage_row.length == EXPECTED_WAGES_COLUMNS &&
  ((wage_row.drop 2).take EXPECTED_WDL_COLUMNS).all (fun v => (Value.toNum v).isSome) &&
  ((ob_ee_data[i]?).bind Value.toIntTrunc).isSome &&
  ((ob_er_data[i]?).bind Value.toIntTrunc).isSome &&
  ((ob_eps_data[i]?).bind Value.toIntTrunc).isSome &&
  (match wdl_ee_data[i]? with
   | some rw => rw.length == EXPECTED_WDL_COLUMNS &&
       rw.all (fun v => (Value.toIntTrunc v).isSome)
   | none => false) &&
  (match wdl_er_data[i]? with
   | some rw => rw.length == EXPECTED_WDL_COLUMNS &&
       rw.all (fun v => (Value.toIntTrunc v).isSome)
   | none => false)

/-- The result of `pyRound` is a nearest integer, with ties broken to the
even side. -/
lemma pyRound_rounds (q : ℚ) : roundsToNearestTiesEven q (pyRound q) := by
  have hfl : (⌊q⌋ : ℚ) ≤ q := Int.floor_le q
  have hfu : q < ⌊q⌋ + 1 := Int.lt_floor_add_one q
  simp only [pyRound, roundsToNearestTiesEven]
  split_ifs with h1 h2 h3
  · constructor
    · rw [abs_sub_comm, abs_of_nonneg (by linarith)]
      linarith
    · intro habs
      rw [abs_sub_comm, abs_of_nonneg (by linarith)] at habs
      linarith
  · constructor
    · rw [abs_of_nonneg (by push_cast; linarith)]
      push_cast
      linarith
    · intro habs
      rw [abs_of_nonneg (by push_cast; linarith)] at habs
      push_cast at habs
      linarith
  · constructor
    · rw [abs_sub_comm, abs_of_nonneg (by linarith)]
      linarith
    · intro _
      exact h3
  · constructor
    · rw [abs_of_nonneg (by push_cast; linarith)]
      push_cast
      linarith
    · intro _
      omega

/-- The balance tail has exactly as many entries as the loop has
iterations. -/
lemma balSpecAux_length (cs ws : List ℤ) :
    ∀ (k : ℕ) (i : ℕ) (cur : ℤ), (balSpecAux cs ws cur i k).length = k := by
  intro k
  induction k with
  | zero => intro i cur; rfl
  | succ k ih => intro i cur; simp [balSpecAux, ih]

/-- When every index the loop touches is in range for both lists,
`balanceSteps` succeeds and agrees with its total companion. -/
lemma balanceSteps_eq (cs ws : List ℤ) :
    ∀ (k i : ℕ) (cur : ℤ), i + k ≤ cs.length → i + k ≤ ws.length →
      balanceSteps cs ws cur i k = some (balSpecAux cs ws cur i k) := by
  intro k
  induction k with
  | zero => intro i cur h1 h2; rfl
  | succ k ih =>
    intro i cur h1 h2
    have hci : i < cs.length := by omega
    have hwi : i < ws.length := by omega
    have hcs : cs[i]? = some cs[i] := List.getElem?_eq_getElem hci
    have hws : ws[i]? = some ws[i] := List.getElem?_eq_getElem hwi
    have hgc : cs.getD i 0 = cs[i] := List.getD_eq_getElem cs 0 hci
    have hgw : ws.getD i 0 = ws[i] := List.getD_eq_getElem ws 0 hwi
    have hih := ih (i+1) (cur + cs[i] - ws[i]) (by omega) (by omega)
    simp [balanceSteps, balSpecAux, hcs, hws, hgc, hgw, hih]

/-- Running-balance recurrence of the loop: every entry of the series after
the first is the previous entry plus the contribution minus the withdrawal
of the corresponding month. -/
lemma balSpecAux_recurrence (cs ws : List ℤ) :
    ∀ (k i : ℕ) (cur : ℤ) (j : ℕ), j + 1 ≤ k →
      (cur :: balSpecAux cs ws cur i k).getD (j+1) 0 =
        (cur :: balSpecAux cs ws cur i k).getD j 0 + cs.getD (i+j) 0 - ws.getD (i+j) 0 := by
  intro k
  induction k with
  | zero => intro i cur j hj; omega
  | succ k ih =>
    intro i cur j hj
    have hsucc : balSpecAux cs ws cur i (k+1) =
        (cur + cs.getD i 0 - ws.getD i 0) ::
          balSpecAux cs ws (cur + cs.getD i 0 - ws.getD i 0) (i+1) k := rfl
    match j with
    | 0 => simp [hsucc]
    | j+1 =>
      have hstep := ih (i+1) (cur + cs.getD i 0 - ws.getD i 0) j (by omega)
      simp only [hsucc, List.getD_cons_succ] at hstep ⊢
      rw [hstep]
      have harith : i + 1 + j = i + (j + 1) := by omega
      rw [harith]

/-- Closed form of `calculate_monthly_balances` when all four lists have
length `n`: both balance tails exist and the interest figures are computed
from the built series. -/
lemma calculate_monthly_balances_eq (ob_ee ob_er : ℤ)
    (csE csR wsE wsR : List ℤ) (rate : ℚ) (n : ℕ)
    (hE : csE.length = n) (hR : csR.length = n)
    (hwE : wsE.length = n) (hwR : wsR.length = n) :
    calculate_monthly_balances ob_ee ob_er csE csR wsE wsR rate =
      some (ob_ee :: balSpecAux csE wsE ob_ee 0 (n-1),
            ob_er :: balSpecAux csR wsR ob_er 0 (n-1),
            pyRound ((((ob_ee :: balSpecAux csE wsE ob_ee 0 (n-1)).sum - wsE.sum : ℤ) : ℚ)
              * rate / INTEREST_DIVISOR),
            pyRound ((((ob_er :: balSpecAux csR wsR ob_er 0 (n-1)).sum - wsR.sum : ℤ) : ℚ)
              * rate / INTEREST_DIVISOR)) := by
  have h1 := balanceSteps_eq csE wsE (n-1) 0 ob_ee (by omega) (by omega)
  have h2 := balanceSteps_eq csR wsR (n-1) 0 ob_er (by omega) (by omega)
  simp [calculate_monthly_balances, hE, h1, h2]

/-- C2: for every opening balance and 12-element contribution and withdrawal
lists (per fund share), the balance series returned by
`calculate_monthly_balances` has exactly 12 entries, starts at the opening
balance, and obeys `balances[i] = balances[i-1] + contributions[i-1] -
withdrawals[i-1]` for `i = 1..11`; the twelfth month's contribution and
withdrawal are never folded into the series. -/
theorem C2_balance_series_recurrence (ob_ee ob_er : ℤ)
    (csE csR wsE wsR : List ℤ) (rate : ℚ)
    (hE : csE.length = 12) (hR : csR.length = 12)
    (hwE : wsE.length = 12) (hwR : wsR.length = 12) :
    ∃ bee ber iee ier,
      calculate_monthly_balances ob_ee ob_er csE csR wsE wsR rate =
        some (bee, ber, iee, ier) ∧
      bee.length = 12 ∧ ber.length = 12 ∧
      bee.getD 0 0 = ob_ee ∧ ber.getD 0 0 = ob_er ∧
      (∀ i, 1 ≤ i → i ≤ 11 →
        bee.getD i 0 = bee.getD (i-1) 0 + csE.getD (i-1) 0 - wsE.getD (i-1) 0) ∧
      (∀ i, 1 ≤ i → i ≤ 11 →
        ber.getD i 0 = ber.getD (i-1) 0 + csR.getD (i-1) 0 - wsR.getD (i-1) 0) := by
  refine ⟨_, _, _, _,
    calculate_monthly_balances_eq ob_ee ob_er csE csR wsE wsR rate 12 hE hR hwE hwR,
    ?_, ?_, ?_, ?_, ?_, ?_⟩
  · simp [balSpecAux_length]
  · simp [balSpecAux_length]
  · rfl
  · rfl
  · intro i h1 h11
    have hrec := balSpecAux_recurrence csE wsE (12-1) 0 ob_ee (i-1) (by omega)
    have heq : i - 1 + 1 = i := by omega
    rw [heq] at hrec
    simpa using hrec
  · intro i h1 h11
    have hrec := balSpecAux_recurrence csR wsR (12-1) 0 ob_er (i-1) (by omega)
    have heq : i - 1 + 1 = i := by omega
    rw [heq] at hrec
    simpa using hrec

/-- C2 witness: the claim instantiated on concrete 12-month data. -/
theorem C2_balance_series_recurrence_witness :
    ∃ bee ber iee ier,
      calculate_monthly_balances 100 200
        [10, 20, 30, 40, 50, 60, 70, 80, 90, 100, 110, 120]
        [1, 2, 3, 4, 5, 6, 7, 8, 9, 10, 11, 12]
        [0, 0, 5, 0, 0, 0, 0, 0, 0, 0, 0, 7]
        [0, 1, 0, 0, 0, 0, 0, 0, 0, 0, 0, 0] (17/2) =
        some (bee, ber, iee, ier) ∧
      bee.length = 12 ∧ ber.length = 12 ∧
      bee.getD 0 0 = 100 ∧ ber.getD 0 0 = 200 ∧
      (∀ i, 1 ≤ i → i ≤ 11 →
        bee.getD i 0 = bee.getD (i-1) 0 +
          [10, 20, 30, 40, 50, 60, 70, 80, 90, 100, 110, 120].getD (i-1) 0 -
          [0, 0, 5, 0, 0, 0, 0, 0, 0, 0, 0, 7].getD (i-1) 0) ∧
      (∀ i, 1 ≤ i → i ≤ 11 →
        ber.getD i 0 = ber.getD (i-1) 0 +
          [1, 2, 3, 4, 5, 6, 7, 8, 9, 10, 11, 12].getD (i-1) 0 -
          [0, 1, 0, 0, 0, 0, 0, 0, 0, 0, 0, 0].getD (i-1) 0) :=
  C2_balance_series_recurrence 100 200 _ _ _ _ (17/2) rfl rfl rfl rfl

/-- C3: the interest returned by `calculate_monthly_balances` for each share
equals `round((sum(balances) - sum(withdrawals)) * rate / 1200)`, and on the
single-month series with opening 12000, contributions `[1000]`, withdrawals
`[0]` and rate 8.5 the balance series is `[12000]` and the interest is 85. -/
theorem C3_interest_formula :
    (∀ (ob_ee ob_er : ℤ) (csE csR wsE wsR : List ℤ) (rate : ℚ)
        (bee ber : List ℤ) (iee ier : ℤ),
      calculate_monthly_balances ob_ee ob_er csE csR wsE wsR rate =
          some (bee, ber, iee, ier) →
      iee = pyRound (((bee.sum - wsE.sum : ℤ) : ℚ) * rate / INTEREST_DIVISOR) ∧
      ier = pyRound (((ber.sum - wsR.sum : ℤ) : ℚ) * rate / INTEREST_DIVISOR)) ∧
    calculate_monthly_balances 12000 0 [1000] [0] [0] [0] (17/2) =
      some ([12000], [0], 85, 0) := by
  constructor
  · intro ob_ee ob_er csE csR wsE wsR rate bee ber iee ier h
    rw [calculate_monthly_balances] at h
    rcases h1 : balanceSteps csE wsE ob_ee 0 (csE.length - 1) with _ | eeT <;>
      rcases h2 : balanceSteps csR wsR ob_er 0 (csE.length - 1) with _ | erT <;>
      rw [h1, h2] at h
    · exact absurd h (by simp)
    · exact absurd h (by simp)
    · exact absurd h (by simp)
    · simp only [Option.some.injEq, Prod.mk.injEq] at h
      obtain ⟨hb1, hb2, hi1, hi2⟩ := h
      subst hb1
      subst hb2
      subst hi1
      subst hi2
      exact ⟨rfl, rfl⟩
  · have h0 : balanceSteps [1000] [0] 12000 0 0 = some [] := rfl
    have h0r : balanceSteps [0] [0] 0 0 0 = some [] := rfl
    rw [calculate_monthly_balances]
    simp only [List.length_singleton, Nat.sub_self, h0, h0r]
    norm_num [pyRound, INTEREST_DIVISOR]

/-- C3 witness: the universal part of the claim applied to the concrete
single-month series. -/
theorem C3_interest_formula_witness :
    (85 : ℤ) = pyRound (((([12000] : List ℤ).sum - ([0] : List ℤ).sum : ℤ) : ℚ)
      * (17/2) / INTEREST_DIVISOR) ∧
    (0 : ℤ) = pyRound (((([0] : List ℤ).sum - ([0] : List ℤ).sum : ℤ) : ℚ)
      * (17/2) / INTEREST_DIVISOR) :=
  C3_interest_formula.1 12000 0 [1000] [0] [0] [0] (17/2) [12000] [0] 85 0
    C3_interest_formula.2

/-- C10: under the equal-length precondition the function is total — the
loop iterates exactly `max(n-1, 0)` times, so each balance series has
`(n-1)+1` entries and every index access is in range. -/
theorem C10_loop_totality (ob_ee ob_er : ℤ) (csE csR wsE wsR : List ℤ)
    (rate : ℚ) (n : ℕ)
    (hE : csE.length = n) (hR : csR.length = n)
    (hwE : wsE.length = n) (hwR : wsR.length = n) :
    ∃ bee ber iee ier,
      calculate_monthly_balances ob_ee ob_er csE csR wsE wsR rate =
        some (bee, ber, iee, ier) ∧
      bee.length = (n - 1) + 1 ∧ ber.length = (n - 1) + 1 := by
  refine ⟨_, _, _, _,
    calculate_monthly_balances_eq ob_ee ob_er csE csR wsE wsR rate n hE hR hwE hwR,
    ?_, ?_⟩ <;> simp [balSpecAux_length]

/-- C1 counterexample: at wage 5000 the pension product
`5000 * 0.0833 = 416.5` is an exact half-way tie (also as an IEEE double);
the code rounds it to 416 (ties to even) while round-half-up yields 417, so
the pension share is not obtained by round-half-up rounding. -/
theorem C1_round_half_up_counterexample :
    (calculate_contributions 5000).2.2 = 416 ∧
    roundHalfUp (5000 * EPS_CONTRIBUTION_RATE) = 417 ∧
    (calculate_contributions 5000).2.2 ≠ roundHalfUp (5000 * EPS_CONTRIBUTION_RATE) := by
  refine ⟨?_, ?_, ?_⟩ <;>
    norm_num [calculate_contributions, pyRound, roundHalfUp, EPS_CONTRIBUTION_RATE,
      EMPLOYEE_CONTRIBUTION_RATE, EMPLOYER_CONTRIBUTION_RATE]

/-- C1 (amended): for every wage ≥ 0, `calculate_contributions` returns the
triple (employee, employer, pension) in which each amount is its own
rate-times-wage product rounded independently to the nearest whole currency
unit under round-half-to-EVEN (Python banker's) semantics — not
round-half-up — and none of the three outputs is derived from the other
two: at wage 5 the employee amount differs from employer + pension. -/
theorem C1_contributions_round_ties_even :
    (∀ wage : ℚ, 0 ≤ wage →
      roundsToNearestTiesEven (wage * EMPLOYEE_CONTRIBUTION_RATE)
        (calculate_contributions wage).1 ∧
      roundsToNearestTiesEven (wage * EMPLOYER_CONTRIBUTION_RATE)
        (calculate_contributions wage).2.1 ∧
      roundsToNearestTiesEven (wage * EPS_CONTRIBUTION_RATE)
        (calculate_contributions wage).2.2) ∧
    (calculate_contributions 5).1 ≠
      (calculate_contributions 5).2.1 + (calculate_contributions 5).2.2 := by
  constructor
  · intro wage _
    exact ⟨pyRound_rounds _, pyRound_rounds _, pyRound_rounds _⟩
  · norm_num [calculate_contributions, pyRound, EMPLOYEE_CONTRIBUTION_RATE,
      EMPLOYER_CONTRIBUTION_RATE, EPS_CONTRIBUTION_RATE]

/-- C1 witness: the amended claim applied at the concrete wage 5. -/
theorem C1_contributions_round_ties_even_witness :
    (0 : ℚ) ≤ 5 ∧
    (roundsToNearestTiesEven (5 * EMPLOYEE_CONTRIBUTION_RATE)
        (calculate_contributions 5).1 ∧
      roundsToNearestTiesEven (5 * EMPLOYER_CONTRIBUTION_RATE)
        (calculate_contributions 5).2.1 ∧
      roundsToNearestTiesEven (5 * EPS_CONTRIBUTION_RATE)
        (calculate_contributions 5).2.2) :=
  ⟨by decide, C1_contributions_round_ties_even.1 5 (by decide)⟩

/-- C6: `calculate_contributions` returns exactly (1200, 367, 833) at wage
10000, (0, 0, 0) at wage 0, and (1200, 367, 833) at wage 10001, in the
order (employee share, employer share, pension share). -/
theorem C6_contribution_examples :
    calculate_contributions 10000 = (1200, 367, 833) ∧
    calculate_contributions 0 = (0, 0, 0) ∧
    calculate_contributions 10001 = (1200, 367, 833) := by
  refine ⟨?_, ?_, ?_⟩ <;>
    norm_num [calculate_contributions, pyRound, EMPLOYEE_CONTRIBUTION_RATE,
      EMPLOYER_CONTRIBUTION_RATE, EPS_CONTRIBUTION_RATE]

/-- C10 witness: totality at a concrete length-3 instance. -/
theorem C10_loop_totality_witness :
    ∃ bee ber iee ier,
      calculate_monthly_balances 5 6 [1, 2, 3] [4, 5, 6] [7, 8, 9] [1, 1, 1] 12 =
        some (bee, ber, iee, ier) ∧
      bee.length = (3 - 1) + 1 ∧ ber.length = (3 - 1) + 1 :=
  C10_loop_totality 5 6 _ _ _ _ 12 3 rfl rfl rfl rfl

/-- C8: during record extraction every missing cell is substituted by zero
and every present cell is passed through unchanged, in both the
single-column and the multi-column branch of `fetch_sheet_data`. -/
theorem C8_missing_cells_default_to_zero :
    (∀ (rows : List (List (Option Value))) (i : ℕ) (r : List (Option Value))
        (cell : Option Value),
      rows[i]? = some r → r[0]? = some cell →
      (fetch_sheet_data_single rows)[i]? = some (cell.getD (Value.num 0))) ∧
    (∀ (rows : List (List (Option Value))) (i j : ℕ) (r : List (Option Value))
        (cell : Option Value),
      rows[i]? = some r → r[j]? = some cell →
      ∃ outRow, (fetch_sheet_data_multi rows)[i]? = some outRow ∧
        outRow[j]? = some (cell.getD (Value.num 0))) := by
  constructor
  · intro rows i r cell hi h0
    rw [fetch_sheet_data_single, List.getElem?_map _ rows i, hi]
    simp [h0]
  · intro rows i j r cell hi hj
    refine ⟨r.map (fun v => v.getD (Value.num 0)), ?_, ?_⟩
    · rw [fetch_sheet_data_multi, List.getElem?_map _ rows i, hi]
      simp
    · rw [List.getElem?_map _ r j, hj]
      simp

/-- C8 witness: a missing cell and a present cell at concrete positions. -/
theorem C8_missing_cells_default_to_zero_witness :
    ((fetch_sheet_data_single [[none], [some (Value.num 7)]])[0]? =
      some ((none : Option Value).getD (Value.num 0))) ∧
    ∃ outRow,
      (fetch_sheet_data_multi [[some (Value.str "x"), none]])[0]? = some outRow ∧
      outRow[1]? = some ((none : Option Value).getD (Value.num 0)) :=
  ⟨C8_missing_cells_default_to_zero.1 [[none], [some (Value.num 7)]] 0 [none] none
      rfl rfl,
    C8_missing_cells_default_to_zero.2 [[some (Value.str "x"), none]] 0 1
      [some (Value.str "x"), none] none rfl rfl⟩

/-- C9: the computation is deterministic — two runs of
`generate_output_rows` on identical input tables and an identical interest
rate produce identical output rows, header and data rows alike. -/
theorem C9_deterministic
    (w1 w2 : List (List Value)) (oe1 oe2 or1 or2 op1 op2 : List Value)
    (we1 we2 wr1 wr2 : List (List Value)) (r1 r2 : ℚ)
    (hw : w1 = w2) (hoe : oe1 = oe2) (hor : or1 = or2) (hop : op1 = op2)
    (hwe : we1 = we2) (hwr : wr1 = wr2) (hr : r1 = r2) :
    generate_output_rows w1 oe1 or1 op1 we1 wr1 r1 =
      generate_output_rows w2 oe2 or2 op2 we2 wr2 r2 := by
  subst hw
  subst hoe
  subst hor
  subst hop
  subst hwe
  subst hwr
  subst hr
  rfl

/-- C9 witness: the determinism theorem applied at a concrete input. -/
theorem C9_deterministic_witness :
    generate_output_rows [] [] [] [] [] [] 0 =
      generate_output_rows [] [] [] [] [] [] 0 :=
  C9_deterministic [] [] [] [] [] [] [] [] [] [] [] [] 0 0
    rfl rfl rfl rfl rfl rfl rfl

/-- Scan step: a check whose compared counts differ is the first failure. -/
lemma find?_check_pos (m : String) (a b : ℕ) (l : List (String × ℕ × ℕ))
    (h : a ≠ b) :
    ((m, a, b) :: l).find? (fun c => c.2.1 != c.2.2) = some (m, a, b) :=
  List.find?_cons_of_pos l (bne_iff_ne.mpr h)

/-- Scan step: a check whose compared counts agree is skipped. -/
lemma find?_check_neg (m : String) (a b : ℕ) (l : List (String × ℕ × ℕ))
    (h : a = b) :
    ((m, a, b) :: l).find? (fun c => c.2.1 != c.2.2) =
      l.find? (fun c => c.2.1 != c.2.2) :=
  List.find?_cons_of_neg l (by simp [h])

/-- C5: the schema validator is the first-failure scan of the fixed ordered
check list — column counts for all six tables, then row counts of each
remaining table against the wage table — so the first failing check
determines the raised diagnostic (whose text carries the table name with
the expected and actual counts, both row counts for a row mismatch), the
validator raises nothing when every check passes, and it mutates nothing
(it is a pure function of the six dimension records). -/
theorem C5_validator_first_failure
    (wage ob_ee ob_er ob_eps wdl_ee wdl_er : Worksheet) :
    validate_sheet_dimensions wage ob_ee ob_er ob_eps wdl_ee wdl_er =
      ((dimensionChecks wage ob_ee ob_er ob_eps wdl_ee wdl_er).find?
          (fun c => c.2.1 != c.2.2)).map (fun c => c.1) := by
  simp only [validate_sheet_dimensions, dimensionChecks]
  by_cases h1 : wage.max_column = EXPECTED_WAGES_COLUMNS
  case neg =>
    rw [if_pos h1, find?_check_pos _ _ _ _ h1]
    rfl
  rw [if_neg (not_not_intro h1), find?_check_neg _ _ _ _ h1]
  by_cases h2 : ob_ee.max_column = EXPECTED_OB_COLUMNS
  case neg =>
    rw [if_pos h2, find?_check_pos _ _ _ _ h2]
    rfl
  rw [if_neg (not_not_intro h2), find?_check_neg _ _ _ _ h2]
  by_cases h3 : ob_er.max_column = EXPECTED_OB_COLUMNS
  case neg =>
    rw [if_pos h3, find?_check_pos _ _ _ _ h3]
    rfl
  rw [if_neg (not_not_intro h3), find?_check_neg _ _ _ _ h3]
  by_cases h4 : ob_eps.max_column = EXPECTED_OB_COLUMNS
  case neg =>
    rw [if_pos h4, find?_check_pos _ _ _ _ h4]
    rfl
  rw [if_neg (not_not_intro h4), find?_check_neg _ _ _ _ h4]
  by_cases h5 : wdl_ee.max_column = EXPECTED_WDL_COLUMNS
  case neg =>
    rw [if_pos h5, find?_check_pos _ _ _ _ h5]
    rfl
  rw [if_neg (not_not_intro h5), find?_check_neg _ _ _ _ h5]
  by_cases h6 : wdl_er.max_column = EXPECTED_WDL_COLUMNS
  case neg =>
    rw [if_pos h6, find?_check_pos _ _ _ _ h6]
    rfl
  rw [if_neg (not_not_intro h6), find?_check_neg _ _ _ _ h6]
  by_cases h7 : wage.max_row = ob_ee.max_row
  case pos =>
    rw [if_neg (not_not_intro h7), find?_check_neg _ _ _ _ h7]
    by_cases h8 : wage.max_row = ob_er.max_row
    case pos =>
      rw [if_neg (not_not_intro h8), find?_check_neg _ _ _ _ h8]
      by_cases h9 : wage.max_row = ob_eps.max_row
      case pos =>
        rw [if_neg (not_not_intro h9), find?_check_neg _ _ _ _ h9]
        by_cases h10 : wage.max_row = wdl_ee.max_row
        case pos =>
          rw [if_neg (not_not_intro h10), find?_check_neg _ _ _ _ h10]
          by_cases h11 : wage.max_row = wdl_er.max_row
          case pos =>
            rw [if_neg (not_not_intro h11),
              find?_check_neg _ _ _ _ h11]
            rfl
          case neg =>
            rw [if_pos h11, find?_check_pos _ _ _ _ h11]
            rfl
        case neg =>
          rw [if_pos h10, find?_check_pos _ _ _ _ h10]
          rfl
      case neg =>
        rw [if_pos h9, find?_check_pos _ _ _ _ h9]
        rfl
    case neg =>
      rw [if_pos h8, find?_check_pos _ _ _ _ h8]
      rfl
  case neg =>
    rw [if_pos h7, find?_check_pos _ _ _ _ h7]
    rfl

/-- Closed form of `employeeRow` when each table access and coercion
succeeds: the emitted row is the 15-entry list of the source, with
`str(...)` around every computed number. -/
lemma employeeRow_eq (wage_row : List Value)
    (obE obR obP : List Value) (wE wR : List (List Value)) (rate : ℚ) (i : ℕ)
    (a nm : Value) (wages : List ℚ) (obe obr obp : ℤ)
    (wlE wlR : List ℤ) (res : List ℤ × List ℤ × ℤ × ℤ)
    (ha : wage_row[0]? = some a) (hnm : wage_row[1]? = some nm)
    (hwages : mapCells Value.toNum ((wage_row.drop 2).take EXPECTED_WDL_COLUMNS) =
      some wages)
    (hobe : (obE[i]?).bind Value.toIntTrunc = some obe)
    (hobr : (obR[i]?).bind Value.toIntTrunc = some obr)
    (hobp : (obP[i]?).bind Value.toIntTrunc = some obp)
    (hwlE : (wE[i]?).bind (mapCells Value.toIntTrunc) = some wlE)
    (hwlR : (wR[i]?).bind (mapCells Value.toIntTrunc) = some wlR)
    (hres : calculate_monthly_balances obe obr
        ((wages.map calculate_contributions).map (fun t => t.1))
        ((wages.map calculate_contributions).map (fun t => t.2.1))
        wlE wlR rate = some res) :
    employeeRow wage_row obE obR obP wE wR rate i = some [a, nm,
      Value.str (toString obe), Value.str (toString obr),
      Value.str (toString res.2.2.1), Value.str (toString res.2.2.2),
      Value.str (toString ((wages.map calculate_contributions).map (fun t => t.1)).sum),
      Value.str (toString ((wages.map calculate_contributions).map (fun t => t.2.1)).sum),
      Value.str (toString wlE.sum), Value.str (toString wlR.sum),
      Value.str (toString (obe + res.2.2.1 +
        ((wages.map calculate_contributions).map (fun t => t.1)).sum - wlE.sum)),
      Value.str (toString (obr + res.2.2.2 +
        ((wages.map calculate_contributions).map (fun t => t.2.1)).sum - wlR.sum)),
      Value.str (toString obp),
      Value.str (toString ((wages.map calculate_contributions).map (fun t => t.2.2)).sum),
      Value.str (toString (obp +
        ((wages.map calculate_contributions).map (fun t => t.2.2)).sum))] := by
  rw [employeeRow, ha, hnm, hwages]
  simp only []
  rw [hobe, hobr, hobp, hwlE, hwlR]
  simp only []
  rw [hres]


/-- Mapping over cells succeeds when the function succeeds on every
element, and preserves the length. -/
lemma mapCells_isSome (f : α → Option β) :
    ∀ (l : List α), (∀ a ∈ l, (f a).isSome = true) →
      ∃ ys, mapCells f l = some ys ∧ ys.length = l.length := by
  intro l
  induction l with
  | nil => intro _; exact ⟨[], rfl, rfl⟩
  | cons a as ih =>
    intro h
    obtain ⟨b, hb⟩ := Option.isSome_iff_exists.mp (h a (by simp))
    obtain ⟨ys, hys, hlen⟩ := ih (fun x hx => h x (by simp [hx]))
    refine ⟨b :: ys, ?_, by simp [hlen]⟩
    simp [mapCells, hb, hys]

/-- Unpacking of the `rowOkB` validity bundle: every table access of the
per-employee loop succeeds, and the wage slice and withdrawal rows all have
the 12 monthly entries. -/
lemma rowOkB_spec (wage_row : List Value)
    (obE obR obP : List Value) (wE wR : List (List Value)) (i : ℕ)
    (h : rowOkB wage_row obE obR obP wE wR i = true) :
    ∃ (a nm : Value) (wages : List ℚ) (obe obr obp : ℤ) (wlE wlR : List ℤ),
      wage_row[0]? = some a ∧ wage_row[1]? = some nm ∧
      mapCells Value.toNum ((wage_row.drop 2).take EXPECTED_WDL_COLUMNS) =
        some wages ∧
      wages.length = EXPECTED_WDL_COLUMNS ∧
      (obE[i]?).bind Value.toIntTrunc = some obe ∧
      (obR[i]?).bind Value.toIntTrunc = some obr ∧
      (obP[i]?).bind Value.toIntTrunc = some obp ∧
      (wE[i]?).bind (mapCells Value.toIntTrunc) = some wlE ∧
      wlE.length = EXPECTED_WDL_COLUMNS ∧
      (wR[i]?).bind (mapCells Value.toIntTrunc) = some wlR ∧
      wlR.length = EXPECTED_WDL_COLUMNS := by
  simp only [rowOkB, Bool.and_eq_true, beq_iff_eq, List.all_eq_true] at h
  obtain ⟨⟨⟨⟨⟨⟨hlen, hnum⟩, hbE⟩, hbR⟩, hbP⟩, hmE⟩, hmR⟩ := h
  have hl0 : 0 < wage_row.length := by
    rw [hlen]
    decide
  have hl1 : 1 < wage_row.length := by
    rw [hlen]
    decide
  have h0 : (wage_row[0]?).isSome = true := by
    rw [List.getElem?_eq_getElem hl0]
    rfl
  have h1 : (wage_row[1]?).isSome = true := by
    rw [List.getElem?_eq_getElem hl1]
    rfl
  obtain ⟨a, ha⟩ := Option.isSome_iff_exists.mp h0
  obtain ⟨nm, hnm⟩ := Option.isSome_iff_exists.mp h1
  obtain ⟨wages, hwages, hwlen⟩ := mapCells_isSome _ _ hnum
  have hslice : ((wage_row.drop 2).take EXPECTED_WDL_COLUMNS).length =
      EXPECTED_WDL_COLUMNS := by
    simp [hlen, EXPECTED_WDL_COLUMNS, EXPECTED_WAGES_COLUMNS]
  obtain ⟨obe, hobe⟩ := Option.isSome_iff_exists.mp hbE
  obtain ⟨obr, hobr⟩ := Option.isSome_iff_exists.mp hbR
  obtain ⟨obp, hobp⟩ := Option.isSome_iff_exists.mp hbP
  rcases hE : wE[i]? with _ | rwE
  · rw [hE] at hmE
    exact absurd hmE (by simp)
  rcases hR : wR[i]? with _ | rwR
  · rw [hR] at hmR
    exact absurd hmR (by simp)
  rw [hE] at hmE
  rw [hR] at hmR
  simp only [Bool.and_eq_true, beq_iff_eq, List.all_eq_true] at hmE hmR
  obtain ⟨hlenE, hallE⟩ := hmE
  obtain ⟨hlenR, hallR⟩ := hmR
  obtain ⟨wlE, hwlE, hwlElen⟩ := mapCells_isSome _ _ hallE
  obtain ⟨wlR, hwlR, hwlRlen⟩ := mapCells_isSome _ _ hallR
  refine ⟨a, nm, wages, obe, obr, obp, wlE, wlR, ha, hnm, hwages, ?_,
    hobe, hobr, hobp, ?_, ?_, ?_, ?_⟩
  · rw [hwlen, hslice]
  · exact hwlE
  · rw [hwlElen, hlenE]
  · exact hwlR
  · rw [hwlRlen, hlenR]


/-- A valid employee slice produces a 15-entry row whose computed fields
are decimal text. -/
lemma employeeRow_ok (wage_row : List Value)
    (obE obR obP : List Value) (wE wR : List (List Value)) (rate : ℚ) (i : ℕ)
    (h : rowOkB wage_row obE obR obP wE wR i = true) :
    ∃ out, employeeRow wage_row obE obR obP wE wR rate i = some out ∧
      out.length = 15 ∧
      ∀ j, 2 ≤ j → j < 15 → ∃ z : ℤ, out[j]? = some (Value.str (toString z)) := by
  obtain ⟨a, nm, wages, obe, obr, obp, wlE, wlR, ha, hnm, hwages, hwlen,
    hobe, hobr, hobp, hwlE, hlE, hwlR, hlR⟩ := rowOkB_spec wage_row obE obR obP wE wR i h
  have hres := calculate_monthly_balances_eq obe obr
    ((wages.map calculate_contributions).map (fun t => t.1))
    ((wages.map calculate_contributions).map (fun t => t.2.1))
    wlE wlR rate EXPECTED_WDL_COLUMNS (by simp [hwlen]) (by simp [hwlen]) hlE hlR
  refine ⟨_, employeeRow_eq wage_row obE obR obP wE wR rate i a nm wages obe obr obp
    wlE wlR _ ha hnm hwages hobe hobr hobp hwlE hwlR hres, rfl, ?_⟩
  intro j h2 h15
  interval_cases j <;> exact ⟨_, rfl⟩

/-- The loop over employees succeeds on validated input and each produced
row is a 15-entry row with textual numeric fields. -/
lemma dataRows_shape (obE obR obP : List Value) (wE wR : List (List Value))
    (rate : ℚ) :
    ∀ (ws : List (List Value)) (i : ℕ),
      (∀ k, k < ws.length → rowOkB (ws.getD k []) obE obR obP wE wR (i + k) = true) →
      ∃ rs, dataRows obE obR obP wE wR rate ws i = some rs ∧
        rs.length = ws.length ∧
        ∀ r ∈ rs, r.length = 15 ∧
          ∀ j, 2 ≤ j → j < 15 → ∃ z : ℤ, r[j]? = some (Value.str (toString z)) := by
  intro ws
  induction ws with
  | nil => intro i _; exact ⟨[], rfl, rfl, by simp⟩
  | cons w rest ih =>
    intro i h
    have hw0 : rowOkB w obE obR obP wE wR i = true := by
      have hh := h 0 (by simp)
      simpa using hh
    obtain ⟨r, hr, hrlen, hrtext⟩ := employeeRow_ok w obE obR obP wE wR rate i hw0
    obtain ⟨rs, hrs, hlen, hshape⟩ := ih (i+1) (fun k hk => by
      have hh := h (k+1) (by simpa using Nat.succ_lt_succ hk)
      rw [List.getD_cons_succ] at hh
      have harith : i + (k + 1) = i + 1 + k := by omega
      rw [harith] at hh
      exact hh)
    refine ⟨r :: rs, ?_, by simp [hlen], ?_⟩
    · simp only [dataRows, hr, hrs]
    · intro x hx
      rcases List.mem_cons.mp hx with hx | hx
      · subst hx
        exact ⟨hrlen, hrtext⟩
      · exact hshape x hx


/-- C7: on validated input, `generate_output_rows` produces one header row
in the fixed 15-title order followed by exactly one data row per employee,
each row having exactly 15 entries with every computed numeric field
emitted as a decimal string. -/
theorem C7_output_shape (wage_sheet_data : List (List Value))
    (obE obR obP : List Value) (wE wR : List (List Value)) (rate : ℚ)
    (h : ∀ k, k < wage_sheet_data.length →
      rowOkB (wage_sheet_data.getD k []) obE obR obP wE wR k = true) :
    ∃ rows, generate_output_rows wage_sheet_data obE obR obP wE wR rate =
        some (headerRow :: rows) ∧
      headerRow = [Value.str "A/C No.", Value.str "NAME", Value.str "OB(EE)",
        Value.str "OB(ER)", Value.str "INT(EE)", Value.str "INT(ER)",
        Value.str "CONT(EE)", Value.str "CONT(ER)", Value.str "WDL(EE)",
        Value.str "WDL(ER)", Value.str "CB(EE)", Value.str "CB(ER)",
        Value.str "OB(EPS)", Value.str "CONT(EPS)", Value.str "CB(EPS)"] ∧
      headerRow.length = 15 ∧
      rows.length = wage_sheet_data.length ∧
      ∀ r ∈ rows, r.length = 15 ∧
        ∀ j, 2 ≤ j → j < 15 → ∃ z : ℤ, r[j]? = some (Value.str (toString z)) := by
  obtain ⟨rs, hrs, hlen, hshape⟩ :=
    dataRows_shape obE obR obP wE wR rate wage_sheet_data 0 (by simpa using h)
  refine ⟨rs, ?_, rfl, rfl, hlen, hshape⟩
  rw [generate_output_rows, hrs]
  rfl

/-- C7 witness: the claim at a concrete validated one-employee input. -/
theorem C7_output_shape_witness :
    ∃ rows, generate_output_rows
        [[Value.str "EPF001", Value.str "John", Value.num 1000, Value.num 1000,
          Value.num 1000, Value.num 1000, Value.num 1000, Value.num 1000,
          Value.num 1000, Value.num 1000, Value.num 1000, Value.num 1000,
          Value.num 1000, Value.num 1000]]
        [Value.num 100] [Value.num 50] [Value.num 0]
        [[Value.num 0, Value.num 0, Value.num 0, Value.num 0, Value.num 0,
          Value.num 0, Value.num 0, Value.num 0, Value.num 0, Value.num 0,
          Value.num 0, Value.num 0]]
        [[Value.num 0, Value.num 0, Value.num 0, Value.num 0, Value.num 0,
          Value.num 0, Value.num 0, Value.num 0, Value.num 0, Value.num 0,
          Value.num 0, Value.num 0]] 12 =
        some (headerRow :: rows) ∧
      headerRow = [Value.str "A/C No.", Value.str "NAME", Value.str "OB(EE)",
        Value.str "OB(ER)", Value.str "INT(EE)", Value.str "INT(ER)",
        Value.str "CONT(EE)", Value.str "CONT(ER)", Value.str "WDL(EE)",
        Value.str "WDL(ER)", Value.str "CB(EE)", Value.str "CB(ER)",
        Value.str "OB(EPS)", Value.str "CONT(EPS)", Value.str "CB(EPS)"] ∧
      headerRow.length = 15 ∧
      rows.length = 1 ∧
      ∀ r ∈ rows, r.length = 15 ∧
        ∀ j, 2 ≤ j → j < 15 → ∃ z : ℤ, r[j]? = some (Value.str (toString z)) :=
  C7_output_shape _ _ _ _ _ _ 12 (by decide)


/-- C4: in every assembled employee row, each interest-bearing closing
balance (entries 10 and 11) equals opening balance + interest + sum of the
12 monthly contributions - sum of the 12 monthly withdrawals, and the
pension closing balance (entry 14) is the pension opening balance plus the
total annual pension contribution, with no interest term and no monthly
balance tracking for the pension share. -/
theorem C4_closing_balance_formula (wage_row : List Value)
    (obE obR obP : List Value) (wE wR : List (List Value)) (rate : ℚ) (i : ℕ)
    (h : rowOkB wage_row obE obR obP wE wR i = true) :
    ∃ (out : List Value) (wages : List ℚ) (obe obr obp : ℤ) (wlE wlR : List ℤ)
      (res : List ℤ × List ℤ × ℤ × ℤ),
      employeeRow wage_row obE obR obP wE wR rate i = some out ∧
      mapCells Value.toNum ((wage_row.drop 2).take EXPECTED_WDL_COLUMNS) =
        some wages ∧
      wages.length = EXPECTED_WDL_COLUMNS ∧
      (obE[i]?).bind Value.toIntTrunc = some obe ∧
      (obR[i]?).bind Value.toIntTrunc = some obr ∧
      (obP[i]?).bind Value.toIntTrunc = some obp ∧
      (wE[i]?).bind (mapCells Value.toIntTrunc) = some wlE ∧
      wlE.length = EXPECTED_WDL_COLUMNS ∧
      (wR[i]?).bind (mapCells Value.toIntTrunc) = some wlR ∧
      wlR.length = EXPECTED_WDL_COLUMNS ∧
      calculate_monthly_balances obe obr
        ((wages.map calculate_contributions).map (fun t => t.1))
        ((wages.map calculate_contributions).map (fun t => t.2.1))
        wlE wlR rate = some res ∧
      out[2]? = some (Value.str (toString obe)) ∧
      out[3]? = some (Value.str (toString obr)) ∧
      out[4]? = some (Value.str (toString res.2.2.1)) ∧
      out[5]? = some (Value.str (toString res.2.2.2)) ∧
      out[6]? = some (Value.str
        (toString ((wages.map calculate_contributions).map (fun t => t.1)).sum)) ∧
      out[7]? = some (Value.str
        (toString ((wages.map calculate_contributions).map (fun t => t.2.1)).sum)) ∧
      out[8]? = some (Value.str (toString wlE.sum)) ∧
      out[9]? = some (Value.str (toString wlR.sum)) ∧
      out[10]? = some (Value.str (toString (obe + res.2.2.1 +
        ((wages.map calculate_contributions).map (fun t => t.1)).sum - wlE.sum))) ∧
      out[11]? = some (Value.str (toString (obr + res.2.2.2 +
        ((wages.map calculate_contributions).map (fun t => t.2.1)).sum - wlR.sum))) ∧
      out[12]? = some (Value.str (toString obp)) ∧
      out[13]? = some (Value.str
        (toString ((wages.map calculate_contributions).map (fun t => t.2.2)).sum)) ∧
      out[14]? = some (Value.str (toString (obp +
        ((wages.map calculate_contributions).map (fun t => t.2.2)).sum))) := by
  obtain ⟨a, nm, wages, obe, obr, obp, wlE, wlR, ha, hnm, hwages, hwlen,
    hobe, hobr, hobp, hwlE, hlE, hwlR, hlR⟩ :=
    rowOkB_spec wage_row obE obR obP wE wR i h
  have hres := calculate_monthly_balances_eq obe obr
    ((wages.map calculate_contributions).map (fun t => t.1))
    ((wages.map calculate_contributions).map (fun t => t.2.1))
    wlE wlR rate EXPECTED_WDL_COLUMNS (by simp [hwlen]) (by simp [hwlen]) hlE hlR
  exact ⟨_, wages, obe, obr, obp, wlE, wlR, _,
    employeeRow_eq wage_row obE obR obP wE wR rate i a nm wages obe obr obp
      wlE wlR _ ha hnm hwages hobe hobr hobp hwlE hwlR hres,
    hwages, hwlen, hobe, hobr, hobp, hwlE, hlE, hwlR, hlR, hres,
    rfl, rfl, rfl, rfl, rfl, rfl, rfl, rfl, rfl, rfl, rfl, rfl, rfl⟩


/-- C4 witness: the claim at a concrete validated employee slice. -/
theorem C4_closing_balance_formula_witness :
    ∃ (out : List Value) (wages : List ℚ) (obe obr obp : ℤ) (wlE wlR : List ℤ)
      (res : List ℤ × List ℤ × ℤ × ℤ),
      employeeRow
        [Value.str "EPF001", Value.str "John", Value.num 1000, Value.num 1000,
          Value.num 1000, Value.num 1000, Value.num 1000, Value.num 1000,
          Value.num 1000, Value.num 1000, Value.num 1000, Value.num 1000,
          Value.num 1000, Value.num 1000]
        [Value.num 100] [Value.num 50] [Value.num 0]
        [[Value.num 0, Value.num 0, Value.num 0, Value.num 0, Value.num 0,
          Value.num 0, Value.num 0, Value.num 0, Value.num 0, Value.num 0,
          Value.num 0, Value.num 0]]
        [[Value.num 0, Value.num 0, Value.num 0, Value.num 0, Value.num 0,
          Value.num 0, Value.num 0, Value.num 0, Value.num 0, Value.num 0,
          Value.num 0, Value.num 0]] 12 0 = some out ∧
      mapCells Value.toNum
        ((([Value.str "EPF001", Value.str "John", Value.num 1000, Value.num 1000,
          Value.num 1000, Value.num 1000, Value.num 1000, Value.num 1000,
          Value.num 1000, Value.num 1000, Value.num 1000, Value.num 1000,
          Value.num 1000, Value.num 1000] : List Value).drop 2).take
          EXPECTED_WDL_COLUMNS) = some wages ∧
      wages.length = EXPECTED_WDL_COLUMNS ∧
      (([Value.num 100] : List Value)[0]?).bind Value.toIntTrunc = some obe ∧
      (([Value.num 50] : List Value)[0]?).bind Value.toIntTrunc = some obr ∧
      (([Value.num 0] : List Value)[0]?).bind Value.toIntTrunc = some obp ∧
      (([[Value.num 0, Value.num 0, Value.num 0, Value.num 0, Value.num 0,
          Value.num 0, Value.num 0, Value.num 0, Value.num 0, Value.num 0,
          Value.num 0, Value.num 0]] : List (List Value))[0]?).bind
        (mapCells Value.toIntTrunc) = some wlE ∧
      wlE.length = EXPECTED_WDL_COLUMNS ∧
      (([[Value.num 0, Value.num 0, Value.num 0, Value.num 0, Value.num 0,
          Value.num 0, Value.num 0, Value.num 0, Value.num 0, Value.num 0,
          Value.num 0, Value.num 0]] : List (List Value))[0]?).bind
        (mapCells Value.toIntTrunc) = some wlR ∧
      wlR.length = EXPECTED_WDL_COLUMNS ∧
      calculate_monthly_balances obe obr
        ((wages.map calculate_contributions).map (fun t => t.1))
        ((wages.map calculate_contributions).map (fun t => t.2.1))
        wlE wlR 12 = some res ∧
      out[2]? = some (Value.str (toString obe)) ∧
      out[3]? = some (Value.str (toString obr)) ∧
      out[4]? = some (Value.str (toString res.2.2.1)) ∧
      out[5]? = some (Value.str (toString res.2.2.2)) ∧
      out[6]? = some (Value.str
        (toString ((wages.map calculate_contributions).map (fun t => t.1)).sum)) ∧
      out[7]? = some (Value.str
        (toString ((wages.map calculate_contributions).map (fun t => t.2.1)).sum)) ∧
      out[8]? = some (Value.str (toString wlE.sum)) ∧
      out[9]? = some (Value.str (toString wlR.sum)) ∧
      out[10]? = some (Value.str (toString (obe + res.2.2.1 +
        ((wages.map calculate_contributions).map (fun t => t.1)).sum - wlE.sum))) ∧
      out[11]? = some (Value.str (toString (obr + res.2.2.2 +
        ((wages.map calculate_contributions).map (fun t => t.2.1)).sum - wlR.sum))) ∧
      out[12]? = some (Value.str (toString obp)) ∧
      out[13]? = some (Value.str
        (toString ((wages.map calculate_contributions).map (fun t => t.2.2)).sum)) ∧
      out[14]? = some (Value.str (toString (obp +
        ((wages.map calculate_contributions).map (fun t => t.2.2)).sum))) :=
  C4_closing_balance_formula _ _ _ _ _ _ 12 0 (by decide)

end EPF
